import Mathlib

/-
Verification of the twat-hatch package scaffolding tool.

Shallow embedding of the two implementations shipped in the repository:
  - src/twat_hatch/hatch.py  (namespace Hatch; the module used by the CLI)
  - src/twat_hatch/core.py   (namespace Core; an older near-duplicate)

Path segments are modelled as List Char (Python str), relative paths as
lists of segments (Python Path.parts).  Machinery shared by both modules
(Python str.replace, str.startswith, substring test, Path.with_suffix)
is defined once at the top level, translated from CPython semantics.
-/

namespace TwatHatch

/-- Python str.replace worker: scans left to right, replaces each
non-overlapping occurrence of pat, continues after the replaced text.
Fuel is the length of the scanned list; each step consumes at least one
element, so the fuel never runs out before the list is exhausted. -/
def replaceAllF (pat repl : List Char) : Nat → List Char → List Char
  | _, [] => []
  | 0, l => l
  | fuel + 1, c :: rest =>
    if pat.isPrefixOf (c :: rest) then
      repl ++ replaceAllF pat repl fuel (List.drop pat.length (c :: rest))
    else
      c :: replaceAllF pat repl fuel rest

/-- Python s.replace(pat, repl) for a non-empty pattern (the program never
replaces an empty pattern). -/
def replaceAll (pat repl s : List Char) : List Char :=
  if pat.isEmpty then s else replaceAllF pat repl s.length s

/-- Python membership test pat in s (substring occurrence). -/
def containsSub (pat : List Char) : List Char → Bool
  | [] => pat.isPrefixOf []
  | c :: rest => pat.isPrefixOf (c :: rest) || containsSub pat rest

/-- Index of the last dot of a name, if any (CPython str.rfind of a dot). -/
def rfindDot : List Char → Option Nat
  | [] => none
  | c :: rest =>
    match rfindDot rest with
    | some i => some (i + 1)
    | none => if c = '.' then some 0 else none

/-- Python PurePath.with_suffix applied to one name with an empty new
suffix: the suffix is the part after the last dot provided that dot is
neither the first nor the last character; with_suffix removes it. -/
def stripSuffix (name : List Char) : List Char :=
  match rfindDot name with
  | none => name
  | some i => if 0 < i ∧ i < name.length - 1 then name.take i else name

/-- Apply f to the last element of a list only (with_suffix acts on the
final path component only). -/
def mapLast (f : α → α) : List α → List α
  | [] => []
  | [a] => [f a]
  | a :: b :: rest => a :: mapLast f (b :: rest)

/-- The reserved hidden marker of hatch.py, the string hidden followed by
a dot. -/
def hiddenDot : List Char := "hidden.".data

/-- A single dot, the replacement text for the hidden marker. -/
def dotSeg : List Char := ".".data

/-- The reserved package-name placeholder token. -/
def pkgTok : List Char := "__package_name__".data

/-- The bare hidden marker of core.py (no trailing dot). -/
def hiddenTok : List Char := "hidden".data

/-- Python truthiness of an optional string: None and the empty string
are falsy. -/
def pyTruthy : Option String → Bool
  | none => false
  | some s => !(s == "")

/-- Import name derivation, from hatch.py _get_context:
name.replace("-", "_"). -/
def importName (name : String) : String :=
  String.mk (replaceAll ['-'] ['_'] name.data)

namespace Hatch

/-- Per-segment rewrite of hatch.py apply_theme (lines 76-81): a segment
starting with the hidden marker has every occurrence of hidden-dot
replaced by a dot; otherwise (elif) a segment containing the package-name
token has every occurrence replaced by the import name from the context. -/
def segTransformL (imp : List Char) (part : List Char) : List Char :=
  if hiddenDot.isPrefixOf part then replaceAll hiddenDot dotSeg part
  else if containsSub pkgTok part then replaceAll pkgTok imp part
  else part

/-- Path transform of hatch.py apply_theme: rewrite every segment, then
strip the suffix of the final segment (rel_path.with_suffix applied to
the rebuilt path). -/
def transformPath (imp : List Char) (parts : List (List Char)) : List (List Char) :=
  mapLast stripSuffix (parts.map (segTransformL imp))

/-- String-level wrapper of the hatch.py path transform. -/
def transformS (import_name : String) (parts : List String) : List String :=
  (transformPath import_name.data (parts.map String.data)).map (fun l => String.mk l)

end Hatch

namespace Core

/-- Per-segment rewrite of core.py apply_theme (lines 69-71): a segment
starting with the bare marker hidden is rewritten to a dot followed by
the segment with its first six characters removed. -/
def segTransform (part : List Char) : List Char :=
  if hiddenTok.isPrefixOf part then '.' :: part.drop 6 else part

/-- Path transform of core.py apply_theme: hidden rewrite on every
segment, then strip the suffix of the final segment.  core.py performs no
package-name substitution. -/
def transformPath (parts : List (List Char)) : List (List Char) :=
  mapLast stripSuffix (parts.map segTransform)

/-- String-level wrapper of the core.py path transform. -/
def transformS (parts : List String) : List String :=
  (transformPath (parts.map String.data)).map (fun l => String.mk l)

end Core

/-
Data model: configuration, template store, rendering, filesystem writes.

The TOML configuration (PackageConfig in both modules) is modelled with
the fields the verified operations read; the author/license/python
metadata fields do not influence theme selection, ordering or paths.
Directories are lists of name segments; the filesystem is the ordered
log of files written (a later write to the same path overwrites).
-/

/-- Fields of PackageConfig read by the operations under verification. -/
structure Config where
  packages : List String
  plugin_host : Option String
  out_dir : List String
  github_username : String
  use_mkdocs : Bool
  use_vcs : Bool
  deriving DecidableEq

/-- One parsed piece of a Jinja template: literal text or a variable
reference rendered through the context (the default jinja2 environment
of both modules prints a missing variable as empty text). -/
inductive Piece
  | lit (s : String)
  | var (n : String)
  deriving DecidableEq

/-- A template body as seen by the external Jinja engine: either it
parses into pieces or it is syntactically invalid, in which case
rendering raises.  The engine itself is an external collaborator of the
program; only this success/failure surface reaches the code under
verification. -/
inductive Tmpl
  | ok (pieces : List Piece)
  | syntaxError
  deriving DecidableEq

/-- One template file of a theme: its path relative to the theme
directory (only files carrying the .j2 suffix are enumerated by
rglob), and its body. -/
structure TemplateFile where
  relParts : List String
  content : Tmpl
  deriving DecidableEq

/-- The template store: one entry per theme directory name, holding the
.j2 files found under it.  A theme name absent from the store models a
theme directory that does not exist. -/
abbrev Store : Type := List (String × List TemplateFile)

/-- A render context: variable name to value. -/
abbrev Ctx : Type := List (String × String)

/-- One file written to disk. -/
structure Write where
  path : List String
  content : String
  deriving DecidableEq

/-- Errors raised by the modelled operations. -/
inductive HatchError
  | themeNotFound (theme : String)
  | renderError
  | fileNotFound
  deriving DecidableEq

/-- Outcome of one subprocess invocation: success, non-zero exit
(subprocess.CalledProcessError), or missing binary (FileNotFoundError). -/
inductive SpResult
  | ok
  | calledProcessError
  | fileNotFound
  deriving DecidableEq

/-- Environment describing how the external git and gh binaries behave. -/
structure SubprocEnv where
  git : SpResult
  gh : SpResult
  deriving DecidableEq

/-- Evaluate one piece against the context. -/
def evalPiece (ctx : Ctx) : Piece → String
  | .lit s => s
  | .var n => (ctx.lookup n).getD ""

/-- Render parsed pieces: concatenation of evaluated pieces. -/
def renderPieces (ctx : Ctx) (ps : List Piece) : String :=
  ps.foldl (fun acc p => acc ++ evalPiece ctx p) ""

/-- render_template: raises on a syntactically invalid template,
otherwise yields the rendered text. -/
def renderT (ctx : Ctx) : Tmpl → Except HatchError String
  | .ok ps => .ok (renderPieces ctx ps)
  | .syntaxError => .error .renderError

/-- The import name the path transform reads from the context
(context of apply_theme, key import_name). -/
def ctxImportName (ctx : Ctx) : String :=
  (ctx.lookup "import_name").getD ""

namespace Hatch

/-- Loop body of hatch.py apply_theme over the enumerated template
files: compute the output path via the path transform, render, then
write.  A render error raises and aborts the remaining files of the
theme; files already written remain. -/
def applyFiles (ctx : Ctx) (target : List String) :
    List TemplateFile → List Write → List Write × Option HatchError
  | [], fs => (fs, none)
  | f :: rest, fs =>
    match renderT ctx f.content with
    | .error e => (fs, some e)
    | .ok text =>
      applyFiles ctx target rest
        (fs ++ [{ path := target ++ transformS (ctxImportName ctx) f.relParts,
                  content := text }])

/-- hatch.py apply_theme: resolve the theme directory first and raise
FileNotFoundError before enumerating or writing anything if it is
absent; otherwise process every .j2 file. -/
def applyThemeOn (store : Store) (theme : String) (target : List String)
    (ctx : Ctx) (fs : List Write) : List Write × Option HatchError :=
  match store.lookup theme with
  | none => (fs, some (.themeNotFound theme))
  | some files => applyFiles ctx target files fs

/-- Apply a list of themes in order; the first error aborts the rest
(exceptions propagate out of initialize_package). -/
def applyThemes (store : Store) (ctx : Ctx) (target : List String) :
    List String → List Write → List Write × Option HatchError
  | [], fs => (fs, none)
  | t :: rest, fs =>
    match applyThemeOn store t target ctx fs with
    | (fs2, some e) => (fs2, some e)
    | (fs2, none) => applyThemes store ctx target rest fs2

/-- Role-theme choice of hatch.py initialize_package (lines 417-426):
a truthy plugin_host selects plugin_host for the host itself and plugin
for every other package; otherwise the package theme. -/
def roleThemes (ph : Option String) (name : String) : List String :=
  if pyTruthy ph then
    if ph = some name then ["plugin_host"] else ["plugin"]
  else ["package"]

/-- The ordered list of themes initialize_package applies to one
package: the default theme first, then the role theme, then the
optional mkdocs feature theme. -/
def packageThemes (cfg : Config) (name : String) : List String :=
  "default" :: roleThemes cfg.plugin_host name ++
    (if cfg.use_mkdocs then ["mkdocs"] else [])

/-- Target directory of hatch.py initialize_package:
out_dir / context import_name. -/
def pkgPath (cfg : Config) (name : String) : List String :=
  cfg.out_dir ++ [importName name]

/-- Context built by _get_context; the metadata fields not read by the
modelled operations are omitted. -/
def mkContext (name : String) : Ctx :=
  [("name", name), ("import_name", importName name)]

/-- _init_git_repo plus the git add and commit block of
initialize_package: every git failure, including a missing binary, is
caught (except clauses list CalledProcessError and FileNotFoundError). -/
def initGitAndCommit (env : SubprocEnv) : Option HatchError :=
  match env.git with
  | .ok => none
  | .calledProcessError => none
  | .fileNotFound => none

/-- _create_github_repo: the except clause catches only
subprocess.CalledProcessError, so a missing gh binary
(FileNotFoundError) propagates out of the method. -/
def createGithubRepo (env : SubprocEnv) : Option HatchError :=
  match env.gh with
  | .ok => none
  | .calledProcessError => none
  | .fileNotFound => some .fileNotFound

/-- Version-control tail of initialize_package: git init and commit
(failures caught), then GitHub repo creation when a username is
configured. -/
def vcsSteps (env : SubprocEnv) (cfg : Config) : Option HatchError :=
  match initGitAndCommit env with
  | some e => some e
  | none =>
    if cfg.github_username ≠ "" then createGithubRepo env else none

/-- hatch.py initialize_package: build the context, apply the themes in
order into out_dir / import_name, touch the version file, then run the
optional VCS steps.  The first uncaught error aborts the package. -/
def initializePackageRun (store : Store) (env : SubprocEnv) (cfg : Config)
    (name : String) (fs : List Write) : List Write × Option HatchError :=
  let ctx := mkContext name
  let target := pkgPath cfg name
  match applyThemes store ctx target (packageThemes cfg name) fs with
  | (fs2, some e) => (fs2, some e)
  | (fs2, none) =>
    let fs3 := fs2 ++ [{ path := target ++ ["src", importName name, "__version__.py"],
                         content := "" }]
    if cfg.use_vcs then
      match vcsSteps env cfg with
      | some e => (fs3, some e)
      | none => (fs3, none)
    else (fs3, none)

/-- First block of hatch.py initialize_all: the plugin host is
initialized up front when it is truthy and appears in the package
list. -/
def hostFirst (cfg : Config) : List String :=
  match cfg.plugin_host with
  | some host => if host ≠ "" ∧ host ∈ cfg.packages then [host] else []
  | none => []

/-- The packages initialize_all passes to initialize_package, in call
order: the host-first block, then every listed package whose name
differs from the configured plugin host. -/
def callList (cfg : Config) : List String :=
  hostFirst cfg ++ cfg.packages.filter (fun n => cfg.plugin_host != some n)

/-- Run initialize_package over a call list; an error in one package
propagates out of initialize_all, so the remaining packages are never
invoked.  Returns the filesystem, the packages actually invoked, and
the first error. -/
def runPackages (store : Store) (env : SubprocEnv) (cfg : Config) :
    List String → List Write → List Write × List String × Option HatchError
  | [], fs => (fs, [], none)
  | n :: rest, fs =>
    match initializePackageRun store env cfg n fs with
    | (fs2, some e) => (fs2, [n], some e)
    | (fs2, none) =>
      match runPackages store env cfg rest fs2 with
      | (fs3, ps, err) => (fs3, n :: ps, err)

/-- hatch.py initialize_all, as an effectful run from an empty write
log. -/
def initializeAllRun (store : Store) (env : SubprocEnv) (cfg : Config) :
    List Write × List String × Option HatchError :=
  runPackages store env cfg (callList cfg) []

/-- One (package, theme) application event of initialize_package, in
program order. -/
def packageTrace (cfg : Config) (name : String) : List (String × String) :=
  (packageThemes cfg name).map (fun t => (name, t))

end Hatch

/-- Concatenation of the images of a list under a list-valued map, in
order (the theme-application events of a run). -/
def listFlat (f : α → List β) : List α → List β
  | [] => []
  | a :: rest => f a ++ listFlat f rest

namespace Hatch

/-- The sequence of (package, theme) applications attempted by
initialize_all, in program order. -/
def initializeAllTrace (cfg : Config) : List (String × String) :=
  listFlat (packageTrace cfg) (callList cfg)

end Hatch

namespace Core

/-- Loop body of core.py apply_theme: its path transform performs only
the hidden rewrite (no package-name substitution). -/
def applyFiles (ctx : Ctx) (target : List String) :
    List TemplateFile → List Write → List Write × Option HatchError
  | [], fs => (fs, none)
  | f :: rest, fs =>
    match renderT ctx f.content with
    | .error e => (fs, some e)
    | .ok text =>
      applyFiles ctx target rest
        (fs ++ [{ path := target ++ transformS f.relParts, content := text }])

/-- core.py apply_theme: same theme-directory existence check as
hatch.py before any enumeration or write. -/
def applyThemeOn (store : Store) (theme : String) (target : List String)
    (ctx : Ctx) (fs : List Write) : List Write × Option HatchError :=
  match store.lookup theme with
  | none => (fs, some (.themeNotFound theme))
  | some files => applyFiles ctx target files fs

/-- Role-theme choice of core.py initialize_package (lines 313-319): a
truthy plugin_host selects plugin_host or plugin, but with no plugin
host configured there is no else branch, so no role theme at all. -/
def roleThemes (ph : Option String) (name : String) : List String :=
  if pyTruthy ph then
    if ph = some name then ["plugin_host"] else ["plugin"]
  else []

/-- Themes core.py initialize_package applies to one package. -/
def packageThemes (cfg : Config) (name : String) : List String :=
  "default" :: roleThemes cfg.plugin_host name ++
    (if cfg.use_mkdocs then ["mkdocs"] else [])

/-- Target directory of core.py initialize_package (line 306):
out_dir / name, the raw package name. -/
def pkgPath (cfg : Config) (name : String) : List String :=
  cfg.out_dir ++ [name]

/-- First block of core.py initialize_all: the truthy plugin host is
initialized up front with no check that it appears in the package
list. -/
def hostFirst (cfg : Config) : List String :=
  match cfg.plugin_host with
  | some host => if host ≠ "" then [host] else []
  | none => []

/-- The packages core.py initialize_all passes to initialize_package,
in call order. -/
def callList (cfg : Config) : List String :=
  hostFirst cfg ++ cfg.packages.filter (fun n => cfg.plugin_host != some n)

end Core

/-
Concrete configurations, stores and contexts used by the scenario parts
of the claims.
-/

/-- A configuration with no plugin host and a hyphenated package name. -/
def cfgNoHost : Config :=
  { packages := ["my-pkg"], plugin_host := none, out_dir := ["out"],
    github_username := "", use_mkdocs := false, use_vcs := false }

/-- Scenario B configuration: a host and one plugin package. -/
def cfgB : Config :=
  { packages := ["host", "host-plugin-a"], plugin_host := some "host",
    out_dir := [], github_username := "", use_mkdocs := false, use_vcs := false }

/-- Configuration with version control enabled and a GitHub username. -/
def cfgVcs : Config :=
  { packages := ["pkg"], plugin_host := none, out_dir := [],
    github_username := "alice", use_mkdocs := false, use_vcs := true }

/-- Two plain packages, used for the error-isolation run. -/
def cfgTwo : Config :=
  { packages := ["a", "b"], plugin_host := none, out_dir := [],
    github_username := "", use_mkdocs := false, use_vcs := false }

/-- The plugin host duplicated in the package list. -/
def cfgDup : Config :=
  { packages := ["host", "host", "plug"], plugin_host := some "host",
    out_dir := [], github_username := "", use_mkdocs := false, use_vcs := false }

/-- Scenario A store: the default theme holds one file
hidden.gitignore.j2 whose body is the literal text star-dot-pyc. -/
def storeA : Store :=
  [("default", [{ relParts := ["hidden.gitignore.j2"],
                  content := Tmpl.ok [Piece.lit "*.pyc"] }])]

/-- A store holding only an empty default theme. -/
def storeDefaultOnly : Store := [("default", [])]

/-- A store with empty default and package themes, enough for a package
run to reach the VCS steps. -/
def storeVcs : Store := [("default", []), ("package", [])]

/-- A store whose default theme contains a syntactically invalid
template, so the first package of a run fails while rendering. -/
def storeBad : Store :=
  [("default", [{ relParts := ["bad.j2"], content := Tmpl.syntaxError }]),
   ("package", [])]

/-- Scenario A context: import_name mapped to foo. -/
def ctxFoo : Ctx := [("import_name", "foo")]

/-- A file written by an earlier theme of the same package. -/
def w0 : Write := { path := ["prev.txt"], content := "old" }

/-- Subprocess environment where every binary works. -/
def envOk : SubprocEnv := { git := .ok, gh := .ok }

/-- Subprocess environment where the git binary is absent. -/
def envGitMissing : SubprocEnv := { git := .fileNotFound, gh := .ok }

/-- Subprocess environment where the gh binary is absent. -/
def envGhMissing : SubprocEnv := { git := .ok, gh := .fileNotFound }

/-
Helper lemmas about the shared machinery.
-/

theorem replaceAllF_nil (pat repl : List Char) (fuel : Nat) :
    replaceAllF pat repl fuel [] = [] := by
  cases fuel <;> rfl

theorem replaceAllF_no_occ (pat repl : List Char) (l : List Char) :
    ∀ fuel : Nat, l.length ≤ fuel → containsSub pat l = false →
      replaceAllF pat repl fuel l = l := by
  induction l with
  | nil => intro fuel _ _; exact replaceAllF_nil pat repl fuel
  | cons c rest ih =>
    intro fuel hf hc
    cases fuel with
    | zero => simp at hf
    | succ f =>
      simp only [containsSub, Bool.or_eq_false_iff] at hc
      obtain ⟨h1, h2⟩ := hc
      simp only [replaceAllF, h1, Bool.false_eq_true, if_false]
      rw [ih f (by simp at hf; omega) h2]

theorem replaceAll_of_prefix (pat repl s : List Char)
    (hne : pat.isEmpty = false) (h : pat.isPrefixOf s = true) :
    replaceAll pat repl s =
      repl ++ replaceAllF pat repl (s.length - 1) (s.drop pat.length) := by
  cases s with
  | nil =>
    cases pat with
    | nil => simp [List.isEmpty] at hne
    | cons p ps => simp [List.isPrefixOf] at h
  | cons c rest =>
    unfold replaceAll
    rw [if_neg (by simp [hne])]
    show replaceAllF pat repl (rest.length + 1) (c :: rest) = _
    simp only [replaceAllF, h, if_true]
    simp [List.length_cons]

theorem replaceAllF_char (c d : Char) (l : List Char) :
    ∀ fuel : Nat, l.length ≤ fuel →
      replaceAllF [c] [d] fuel l = l.map (fun x => if x = c then d else x) := by
  induction l with
  | nil => intro fuel _; simp [replaceAllF_nil]
  | cons x rest ih =>
    intro fuel hf
    cases fuel with
    | zero => simp at hf
    | succ f =>
      have hrest : rest.length ≤ f := by simp at hf; omega
      by_cases hx : x = c
      · subst hx
        have hpre : [x].isPrefixOf (x :: rest) = true := by
          simp [List.isPrefixOf]
        simp only [replaceAllF, hpre, if_true]
        simp [ih f hrest]
      · have hpre : [c].isPrefixOf (x :: rest) = false := by
          simp [List.isPrefixOf]
          exact fun hcx => absurd hcx.symm hx
        simp only [replaceAllF, hpre, Bool.false_eq_true, if_false]
        simp [ih f hrest, hx]

theorem importName_data (name : String) :
    (importName name).data = name.data.map (fun ch => if ch = '-' then '_' else ch) := by
  show replaceAll ['-'] ['_'] name.data = _
  unfold replaceAll
  rw [if_neg (by simp [List.isEmpty])]
  exact replaceAllF_char '-' '_' name.data name.data.length (Nat.le_refl _)

theorem map_fix {f : α → α} (l : List α) (h : ∀ a ∈ l, f a = a) : l.map f = l := by
  induction l with
  | nil => rfl
  | cons a rest ih =>
    simp only [List.map_cons]
    rw [h a (List.mem_cons_self a rest), ih (fun b hb => h b (List.mem_cons_of_mem a hb))]

theorem mapLast_fix {f : α → α} :
    ∀ l : List α, (∀ a, l.getLast? = some a → f a = a) → mapLast f l = l
  | [], _ => rfl
  | [a], h => by
    simp only [mapLast]
    rw [h a (by simp)]
  | a :: b :: rest, h => by
    simp only [mapLast]
    rw [mapLast_fix (b :: rest) (fun x hx => h x (by rw [List.getLast?_cons_cons]; exact hx))]

theorem mem_listFlat {f : α → List β} {e : β} :
    ∀ {l : List α}, e ∈ listFlat f l ↔ ∃ a, a ∈ l ∧ e ∈ f a := by
  intro l
  induction l with
  | nil => simp [listFlat]
  | cons a rest ih =>
    simp only [listFlat, List.mem_append, ih, List.mem_cons]
    constructor
    · rintro (he | ⟨x, hx, hex⟩)
      · exact ⟨a, Or.inl rfl, he⟩
      · exact ⟨x, Or.inr hx, hex⟩
    · rintro ⟨x, hx | hx, hex⟩
      · subst hx; exact Or.inl hex
      · exact Or.inr ⟨x, hx, hex⟩

/-- Whether the last output segment is a fixed point of the suffix
strip (the idempotence side condition of the path transform). -/
def lastFixed (l : List (List Char)) : Bool :=
  match l.getLast? with
  | some a => stripSuffix a == a
  | none => true

/-
Claim theorems.
-/

/-- Claim C1 (counterexample): in core.py initialize_package with no
plugin host configured, no role theme is applied at all: the theme list
is just the base default theme, so the claimed standalone package theme
is missing and the number of role themes is zero, not one. -/
theorem c1_core_no_role_theme :
    Core.packageThemes cfgNoHost "my-pkg" = ["default"] ∧
    Core.roleThemes none "my-pkg" = [] ∧
    (Core.roleThemes none "my-pkg").length ≠ 1 := by decide

/-- Claim C1 (amended): hatch.py initialize_package applies exactly one
role theme, chosen as the claim describes; core.py agrees when a
non-empty plugin host is configured but applies zero role themes when
none is configured. -/
theorem c1_role_theme_selection (ph : Option String) (host name : String) :
    (Hatch.roleThemes ph name).length = 1 ∧
    (ph = some host → host ≠ "" → name = host →
      Hatch.roleThemes ph name = ["plugin_host"]) ∧
    (ph = some host → host ≠ "" → name ≠ host →
      Hatch.roleThemes ph name = ["plugin"]) ∧
    (ph = none → Hatch.roleThemes ph name = ["package"]) ∧
    (ph = some host → host ≠ "" → Core.roleThemes ph name = Hatch.roleThemes ph name) ∧
    (ph = none → Core.roleThemes ph name = []) := by
  refine ⟨?_, ?_, ?_, ?_, ?_, ?_⟩
  · unfold Hatch.roleThemes
    split
    · split <;> rfl
    · rfl
  · intro h1 h2 h3
    subst h1; subst h3
    simp [Hatch.roleThemes, pyTruthy, h2]
  · intro h1 h2 h3
    subst h1
    simp [Hatch.roleThemes, pyTruthy, h2, Ne.symm h3]
  · intro h1
    subst h1
    simp [Hatch.roleThemes, pyTruthy]
  · intro h1 h2
    subst h1
    simp [Hatch.roleThemes, Core.roleThemes, pyTruthy, h2]
  · intro h1
    subst h1
    simp [Core.roleThemes, pyTruthy]

/-- Claim C1 (witness): the three role-theme cases at concrete inputs. -/
theorem c1_role_theme_selection_witness :
    Hatch.roleThemes (some "host") "host" = ["plugin_host"] ∧
    Hatch.roleThemes (some "host") "plug" = ["plugin"] ∧
    Hatch.roleThemes none "solo" = ["package"] :=
  ⟨(c1_role_theme_selection (some "host") "host" "host").2.1 rfl (by decide) rfl,
   (c1_role_theme_selection (some "host") "host" "plug").2.2.1 rfl (by decide) (by decide),
   (c1_role_theme_selection none "x" "solo").2.2.2.1 rfl⟩

/-- Claim C2 (counterexample): a segment that both begins with the
hidden marker and contains the package-name token keeps the token: the
elif in hatch.py skips the substitution, so the claimed replacement of
every occurrence does not happen. -/
theorem c2_hidden_segment_keeps_token :
    containsSub pkgTok ("hidden.__package_name__.j2".data) = true ∧
    Hatch.transformS "acme_tool" ["hidden.__package_name__.j2"] = [".__package_name__"] ∧
    Hatch.transformS "acme_tool" ["hidden.__package_name__.j2"] ≠ [".acme_tool"] := by decide

/-- Claim C2 (amended): in hatch.py, a segment that contains the
package-name token and does not begin with the hidden marker has every
occurrence of the token replaced with the import name (Python
str.replace semantics); the cited example transforms as claimed. -/
theorem c2_substitution_on_unhidden_segments (imp seg : List Char)
    (h : containsSub pkgTok seg = true)
    (hh : hiddenDot.isPrefixOf seg = false) :
    Hatch.segTransformL imp seg = replaceAll pkgTok imp seg ∧
    Hatch.transformS "acme_tool" ["__package_name__.py.j2"] = ["acme_tool.py"] := by
  constructor
  · simp [Hatch.segTransformL, hh, h]
  · decide

/-- Claim C2 (witness): the amended statement at the example segment. -/
theorem c2_substitution_witness :
    Hatch.segTransformL ("acme_tool".data) ("__package_name__.py.j2".data) =
      replaceAll pkgTok ("acme_tool".data) ("__package_name__.py.j2".data) ∧
    Hatch.transformS "acme_tool" ["__package_name__.py.j2"] = ["acme_tool.py"] :=
  c2_substitution_on_unhidden_segments ("acme_tool".data) ("__package_name__.py.j2".data)
    (by decide) (by decide)

/-- Claim C3 (counterexample): core.py prepends a dot after removing
only the six characters of the bare marker, so the scenario file
hidden.gitignore.j2 is written as a double-dot name, not .gitignore. -/
theorem c3_core_double_dot :
    Core.applyThemeOn storeA "default" [] ctxFoo [] =
      ([{ path := ["..gitignore"], content := "*.pyc" }], none) ∧
    Core.applyThemeOn storeA "default" [] ctxFoo [] ≠
      ([{ path := [".gitignore"], content := "*.pyc" }], none) := by decide

/-- Claim C3 (amended): in hatch.py, a segment beginning with the
hidden marker transforms to a segment beginning with a dot; when the
marker occurs only as the leading prefix the result is exactly the dot
followed by the remainder of the segment; Scenario A writes .gitignore
with the expected content. -/
theorem c3_hidden_marker_dotfile (imp seg : List Char)
    (h : hiddenDot.isPrefixOf seg = true) :
    (Hatch.segTransformL imp seg).head? = some '.' ∧
    (containsSub hiddenDot (seg.drop 7) = false →
      Hatch.segTransformL imp seg = '.' :: seg.drop 7) ∧
    Hatch.applyThemeOn storeA "default" [] ctxFoo [] =
      ([{ path := [".gitignore"], content := "*.pyc" }], none) := by
  have hseg : Hatch.segTransformL imp seg = replaceAll hiddenDot dotSeg seg := by
    simp [Hatch.segTransformL, h]
  have hrw := replaceAll_of_prefix hiddenDot dotSeg seg (by decide) h
  have h7 : hiddenDot.length = 7 := by decide
  have hdot : dotSeg = ['.'] := by decide
  rw [h7] at hrw
  refine ⟨?_, ?_, by decide⟩
  · rw [hseg, hrw, hdot]
    rfl
  · intro hno
    have hlen : 7 ≤ seg.length := by
      have hpre : hiddenDot <+: seg := by
        rw [← List.isPrefixOf_iff_prefix]
        exact h
      have := hpre.length_le
      omega
    rw [hseg, hrw]
    rw [replaceAllF_no_occ hiddenDot dotSeg (seg.drop 7) (seg.length - 1)
      (by simp [List.length_drop]; omega) hno]
    rw [hdot]
    rfl

/-- Claim C3 (witness): the amended statement at the scenario segment. -/
theorem c3_hidden_marker_witness :
    (Hatch.segTransformL ("foo".data) ("hidden.gitignore.j2".data)).head? = some '.' ∧
    (containsSub hiddenDot (("hidden.gitignore.j2".data).drop 7) = false →
      Hatch.segTransformL ("foo".data) ("hidden.gitignore.j2".data) =
        '.' :: ("hidden.gitignore.j2".data).drop 7) ∧
    Hatch.applyThemeOn storeA "default" [] ctxFoo [] =
      ([{ path := [".gitignore"], content := "*.pyc" }], none) :=
  c3_hidden_marker_dotfile ("foo".data) ("hidden.gitignore.j2".data) (by decide)

/-- Claim C4: when a non-empty plugin host is configured and listed,
initialize_all processes the host first: the application trace is the
whole host trace followed by the traces of the remaining packages, none
of which belongs to the host; Scenario B produces exactly the claimed
order of theme applications. -/
theorem c4_host_initialized_first (cfg : Config) (host : String)
    (h1 : cfg.plugin_host = some host) (hne : host ≠ "")
    (h2 : host ∈ cfg.packages) :
    Hatch.initializeAllTrace cfg =
      Hatch.packageTrace cfg host ++
        listFlat (Hatch.packageTrace cfg)
          (cfg.packages.filter (fun n => cfg.plugin_host != some n)) ∧
    (∀ e ∈ Hatch.packageTrace cfg host, e.1 = host) ∧
    (∀ e ∈ listFlat (Hatch.packageTrace cfg)
        (cfg.packages.filter (fun n => cfg.plugin_host != some n)), e.1 ≠ host) ∧
    Hatch.initializeAllTrace cfgB =
      [("host", "default"), ("host", "plugin_host"),
       ("host-plugin-a", "default"), ("host-plugin-a", "plugin")] := by
  have hhf : Hatch.hostFirst cfg = [host] := by
    unfold Hatch.hostFirst
    rw [h1]
    show (if host ≠ "" ∧ host ∈ cfg.packages then [host] else []) = [host]
    exact if_pos ⟨hne, h2⟩
  have hcall : Hatch.callList cfg =
      host :: cfg.packages.filter (fun n => cfg.plugin_host != some n) := by
    unfold Hatch.callList
    rw [hhf]
    rfl
  refine ⟨?_, ?_, ?_, by decide⟩
  · unfold Hatch.initializeAllTrace
    rw [hcall]
    rfl
  · intro e he
    unfold Hatch.packageTrace at he
    simp only [List.mem_map] at he
    obtain ⟨t, _, rfl⟩ := he
    rfl
  · intro e he
    rw [mem_listFlat] at he
    obtain ⟨n, hn, he2⟩ := he
    rw [List.mem_filter] at hn
    obtain ⟨-, hn2⟩ := hn
    rw [h1] at hn2
    have hnh : host ≠ n := by simpa using hn2
    unfold Hatch.packageTrace at he2
    simp only [List.mem_map] at he2
    obtain ⟨t, _, rfl⟩ := he2
    exact fun hc => hnh hc.symm

/-- Claim C4 (witness): Scenario B instantiation. -/
theorem c4_host_initialized_first_witness :
    Hatch.initializeAllTrace cfgB =
      Hatch.packageTrace cfgB "host" ++
        listFlat (Hatch.packageTrace cfgB)
          (cfgB.packages.filter (fun n => cfgB.plugin_host != some n)) ∧
    (∀ e ∈ Hatch.packageTrace cfgB "host", e.1 = "host") ∧
    (∀ e ∈ listFlat (Hatch.packageTrace cfgB)
        (cfgB.packages.filter (fun n => cfgB.plugin_host != some n)), e.1 ≠ "host") ∧
    Hatch.initializeAllTrace cfgB =
      [("host", "default"), ("host", "plugin_host"),
       ("host-plugin-a", "default"), ("host-plugin-a", "plugin")] :=
  c4_host_initialized_first cfgB "host" rfl (by decide) (by decide)

/-- Claim C5: a theme name absent from the store makes apply_theme of
both modules fail with the theme-not-found error while leaving the
write log exactly as it was, so nothing is written for that theme and
files from earlier themes remain. -/
theorem c5_theme_not_found_no_writes (store : Store) (theme : String)
    (target : List String) (ctx : Ctx) (fs : List Write)
    (h : store.lookup theme = none) :
    Hatch.applyThemeOn store theme target ctx fs =
      (fs, some (HatchError.themeNotFound theme)) ∧
    Core.applyThemeOn store theme target ctx fs =
      (fs, some (HatchError.themeNotFound theme)) := by
  constructor
  · unfold Hatch.applyThemeOn
    rw [h]
  · unfold Core.applyThemeOn
    rw [h]

/-- Claim C5 (witness): a missing plugin theme leaves an earlier write
untouched. -/
theorem c5_theme_not_found_witness :
    Hatch.applyThemeOn storeDefaultOnly "plugin" [] [] [w0] =
      ([w0], some (HatchError.themeNotFound "plugin")) ∧
    Core.applyThemeOn storeDefaultOnly "plugin" [] [] [w0] =
      ([w0], some (HatchError.themeNotFound "plugin")) :=
  c5_theme_not_found_no_writes storeDefaultOnly "plugin" [] [] [w0] (by decide)

/-- Claim C6 (counterexample): the transform is not idempotent: its
suffix strip removes the last extension unconditionally, so the output
acme_tool.py of the claimed example loses .py on a second
application. -/
theorem c6_second_suffix_stripped :
    Hatch.transformPath ("acme_tool".data)
        (Hatch.transformPath ("acme_tool".data) [("__package_name__.py.j2".data)]) ≠
      Hatch.transformPath ("acme_tool".data) [("__package_name__.py.j2".data)] ∧
    Hatch.transformPath ("acme_tool".data) [("__package_name__.py.j2".data)] =
      [("acme_tool.py".data)] ∧
    Hatch.transformPath ("acme_tool".data) [("acme_tool.py".data)] =
      [("acme_tool".data)] := by decide

/-- Claim C6 (amended): the transform is a pure function exactly of the
path and the import name, and it is idempotent precisely on outputs
that trigger no placeholder rule and whose final segment has no
remaining extension: under those two side conditions a second
application changes nothing. -/
theorem c6_conditional_idempotence (imp : List Char) (parts : List (List Char))
    (h1 : (Hatch.transformPath imp parts).all
        (fun s => !(hiddenDot.isPrefixOf s) && !(containsSub pkgTok s)) = true)
    (h2 : lastFixed (Hatch.transformPath imp parts) = true) :
    Hatch.transformPath imp (Hatch.transformPath imp parts) =
      Hatch.transformPath imp parts := by
  have hmap : (Hatch.transformPath imp parts).map (Hatch.segTransformL imp) =
      Hatch.transformPath imp parts := by
    apply map_fix
    intro a ha
    have hall := List.all_eq_true.mp h1 a ha
    simp only [Bool.and_eq_true, Bool.not_eq_true'] at hall
    obtain ⟨ha1, ha2⟩ := hall
    simp [Hatch.segTransformL, ha1, ha2]
  have hlast : mapLast stripSuffix (Hatch.transformPath imp parts) =
      Hatch.transformPath imp parts := by
    apply mapLast_fix
    intro a ha
    unfold lastFixed at h2
    rw [ha] at h2
    exact eq_of_beq h2
  show mapLast stripSuffix
      ((Hatch.transformPath imp parts).map (Hatch.segTransformL imp)) = _
  rw [hmap, hlast]

/-- Claim C6 (witness): the transform of hidden.gitignore.j2 is a fixed
point of a second application. -/
theorem c6_conditional_idempotence_witness :
    Hatch.transformPath ("foo".data)
        (Hatch.transformPath ("foo".data) [("hidden.gitignore.j2".data)]) =
      Hatch.transformPath ("foo".data) [("hidden.gitignore.j2".data)] :=
  c6_conditional_idempotence ("foo".data) [("hidden.gitignore.j2".data)]
    (by decide) (by decide)

/-- Claim C7: with version control enabled, a missing git binary is
caught and the package run still succeeds, but a missing gh binary
raises an uncaught FileNotFoundError in _create_github_repo and aborts
initialize_package and the whole run, contradicting the claim that
every VCS subprocess failure is non-fatal. -/
theorem c7_gh_missing_aborts :
    (Hatch.initializePackageRun storeVcs envGitMissing cfgVcs "pkg" []).2 = none ∧
    (Hatch.initializePackageRun storeVcs envGhMissing cfgVcs "pkg" []).2 =
      some HatchError.fileNotFound ∧
    (Hatch.initializeAllRun storeVcs envGhMissing cfgVcs).2.2 =
      some HatchError.fileNotFound := by decide

/-- Claim C8 (counterexample): core.py joins the output directory with
the raw package name, so a hyphenated package lands in out/my-pkg
rather than the claimed out/my_pkg. -/
theorem c8_core_uses_raw_name :
    Core.pkgPath cfgNoHost "my-pkg" = ["out", "my-pkg"] ∧
    importName "my-pkg" = "my_pkg" ∧
    Core.pkgPath cfgNoHost "my-pkg" ≠ cfgNoHost.out_dir ++ [importName "my-pkg"] := by decide

/-- Claim C8 (amended): hatch.py targets out_dir joined with the import
name, which rewrites every hyphen of the package name to an underscore,
while core.py targets out_dir joined with the raw package name. -/
theorem c8_target_directory (cfg : Config) (name : String) :
    Hatch.pkgPath cfg name = cfg.out_dir ++ [importName name] ∧
    (importName name).data = name.data.map (fun ch => if ch = '-' then '_' else ch) ∧
    Core.pkgPath cfg name = cfg.out_dir ++ [name] :=
  ⟨rfl, importName_data name, rfl⟩

/-- Claim C9 (counterexample): a render error in the first package of a
two-package run stops the whole run: only package a is invoked, package
b is never processed, contradicting the claimed per-package
isolation. -/
theorem c9_failure_aborts_run :
    Hatch.initializeAllRun storeBad envOk cfgTwo =
      ([], ["a"], some HatchError.renderError) ∧
    "b" ∉ (Hatch.initializeAllRun storeBad envOk cfgTwo).2.1 := by decide

/-- Claim C9 (amended): an error while processing one package
propagates out of initialize_all immediately: the failing package is
the last one invoked and none of the remaining packages is
processed. -/
theorem c9_failure_stops_subsequent (store : Store) (env : SubprocEnv)
    (cfg : Config) (n : String) (rest : List String) (fs fs2 : List Write)
    (e : HatchError)
    (h : Hatch.initializePackageRun store env cfg n fs = (fs2, some e)) :
    Hatch.runPackages store env cfg (n :: rest) fs = (fs2, [n], some e) := by
  unfold Hatch.runPackages
  rw [h]

/-- Claim C9 (witness): the amended statement at the failing store. -/
theorem c9_failure_stops_subsequent_witness :
    Hatch.runPackages storeBad envOk cfgTwo ["a", "b"] [] =
      ([], ["a"], some HatchError.renderError) :=
  c9_failure_stops_subsequent storeBad envOk cfgTwo "a" ["b"] [] []
    HatchError.renderError (by decide)

/-- Claim C10: with a plugin host configured, both initialize_all
implementations invoke initialize_package on the host at most once,
because the main loop skips every list entry equal to the host. -/
theorem c10_host_at_most_once (cfg : Config) (host : String)
    (h : cfg.plugin_host = some host) :
    (Hatch.callList cfg).count host ≤ 1 ∧ (Core.callList cfg).count host ≤ 1 := by
  have hfil : (cfg.packages.filter (fun n => cfg.plugin_host != some n)).count host = 0 := by
    rw [List.count_eq_zero]
    intro hmem
    rw [List.mem_filter] at hmem
    obtain ⟨-, hp⟩ := hmem
    rw [h] at hp
    simp at hp
  constructor
  · have hhf : Hatch.hostFirst cfg = [host] ∨ Hatch.hostFirst cfg = [] := by
      unfold Hatch.hostFirst
      rw [h]
      show (if host ≠ "" ∧ host ∈ cfg.packages then [host] else []) = [host] ∨
        (if host ≠ "" ∧ host ∈ cfg.packages then [host] else []) = []
      split
      · exact Or.inl rfl
      · exact Or.inr rfl
    unfold Hatch.callList
    rw [List.count_append, hfil]
    rcases hhf with hh | hh <;> rw [hh] <;> simp [List.count_cons]
  · have hhf : Core.hostFirst cfg = [host] ∨ Core.hostFirst cfg = [] := by
      unfold Core.hostFirst
      rw [h]
      show (if host ≠ "" then [host] else []) = [host] ∨
        (if host ≠ "" then [host] else []) = []
      split
      · exact Or.inl rfl
      · exact Or.inr rfl
    unfold Core.callList
    rw [List.count_append, hfil]
    rcases hhf with hh | hh <;> rw [hh] <;> simp [List.count_cons]

/-- Claim C10 (witness): the host listed twice is still invoked at most
once. -/
theorem c10_host_at_most_once_witness :
    (Hatch.callList cfgDup).count "host" ≤ 1 ∧
    (Core.callList cfgDup).count "host" ≤ 1 :=
  c10_host_at_most_once cfgDup "host" rfl

end TwatHatch
